import Mathlib

/-!
Shallow embedding of the AirStatus repository (matan129/AirStatus).

The repository holds two variants of the same ~100-line program:
`src/airstatus.py` and `src/main.py`.  Both scan for BLE advertisements,
select the Apple (vendor id 76) manufacturer blob whose hex encoding is
54 characters long and whose record has RSSI >= -60, and decode the
resulting 54-byte ASCII-hex payload (the hex encoding of the 27-byte
proximity blob) into a battery/charging status.

Conventions of the embedding:
* bytes are `Nat` values (0..255); a payload is a `List Nat` of the ASCII
  codes of the hex characters produced by `binascii.hexlify`;
* Python `int(chr(b), 16)` on a single byte is `hexDigit? b`, which is
  `none` exactly when Python raises `ValueError`;
* a raised exception is modelled by an `Option`-valued function returning
  `none`; `parse_airpods_data raw = none` models the decode raising;
* Python `bytes.__getitem__` at the fixed indices 7/10/12/13/14/15 is
  `List.getD raw i 0`; all theorems restrict to payloads of length 54
  (the only payloads the filter ever hands to the decoder), where the
  default value is never consulted;
* the decorator `retry_on_none(times, sleep_ms)` is modelled by a pure
  function that also counts probe calls and `time.sleep` invocations;
  the probe is a function from the call number to that call's result;
* dictionary-valued advertisement metadata is an association list; the
  mutating `dict.pop` of `fetch_airpods_raw_data` is modelled twice: a
  result-only version and a state-passing version returning the mutated
  batch.
-/

/-- Python `int(chr(b), 16)` for a single byte `b` (0..255): the ASCII
characters `0`-`9`, `a`-`f` and `A`-`F` parse as a hex digit, every other
character raises `ValueError` (modelled as `none`). -/
def hexDigit? (b : Nat) : Option Nat :=
  if 48 ≤ b ∧ b ≤ 57 then some (b - 48)
  else if 97 ≤ b ∧ b ≤ 102 then some (b - 87)
  else if 65 ≤ b ∧ b ≤ 70 then some (b - 55)
  else none

/-- The model dictionary, identical in both source files: the ASCII code of
the character at payload index 7 is looked up among the lowercase keys
`"2"`, `"f"`, `"e"`, `"a"`; any other character falls back to `"Unknown"`. -/
def modelLookup (b : Nat) : String :=
  if b = 50 then "Airpods 1"
  else if b = 102 then "Airpods 2"
  else if b = 101 then "Airpods Pro"
  else if b = 97 then "Airpods Max"
  else "Unknown"

/-- The value part of battery parsing shared by both variants: a hex digit
`d ≤ 10` means `d * 10` percent, `11 ≤ d ≤ 15` means no reliable reading
(`none` here; `src/airstatus.py` uses Python `None`). -/
def batteryVal (d : Nat) : Option Nat :=
  if d ≤ 10 then some (d * 10) else none

/-- The value part of battery parsing in `src/main.py`, which uses the
numeric sentinel `-1` instead of `None`. -/
def mainBatteryVal (d : Nat) : Int :=
  if d ≤ 10 then (d * 10 : Int) else -1

/-- The three charging booleans both variants derive from the hex digit at
payload index 14: `(bit 0, bit 1, bit 2)` = (left-raw, right-raw, case). -/
def chargingFlags (n : Nat) : Bool × Bool × Bool :=
  (n &&& 1 != 0, n &&& 2 != 0, n &&& 4 != 0)

/-- Decoded status of `src/airstatus.py`: the nested dicts
`charge = {left, right, case}` (values `Optional[int]`) and
`charging = {left, right, case}` are flattened into record fields. -/
structure StatusAS where
  connected : Bool
  model : String
  charge_left : Option Nat
  charge_right : Option Nat
  charge_case : Option Nat
  charging_left : Bool
  charging_right : Bool
  charging_case : Bool
deriving DecidableEq

/-- Decoded status of `src/main.py`: flat fields, `int` battery values with
sentinel `-1`. -/
structure StatusMain where
  connected : Bool
  charge_left : Int
  charge_right : Int
  charge_case : Int
  charging_left : Bool
  charging_right : Bool
  charging_case : Bool
  model : String
deriving DecidableEq

namespace airstatus

/-- `parse_battery_level` of `src/airstatus.py` (lines 80-86): parse the
byte's character as a hex digit (raising on failure), then map digits 0-10
to tens of percent and 11-15 to `None`.  The outer `Option` is the raised
`ValueError`, the inner one is the Python `Optional[int]` result. -/
def parse_battery_level (raw_status : Nat) : Option (Option Nat) :=
  (hexDigit? raw_status).map batteryVal

/-- `maybe_flip` of `src/airstatus.py` (lines 89-101): read the hex digit at
payload index 10 (raising on a non-hex character); when bit 0x02 is clear
the payload is flipped and the left/right keyword arguments are swapped.
The returned dict `{"left": _, "right": _}` is modelled as a (left, right)
pair. -/
def maybe_flip (raw : List Nat) (left right : α) : Option (α × α) :=
  match hexDigit? (raw.getD 10 0) with
  | none => none
  | some d => if d &&& 2 == 0 then some (right, left) else some (left, right)

/-- `parse_airpods_data` of `src/airstatus.py` (lines 49-77).  Evaluation
order of the Python code: model lookup (index 7, never raising), charging
digit (index 14), case battery (index 15), left battery (index 13), right
battery (index 12), then `maybe_flip` (index 10) on batteries and on
charging flags.  Any hex-parse failure propagates as `none`. -/
def parse_airpods_data (raw : List Nat) : Option StatusAS :=
  match hexDigit? (raw.getD 14 0) with
  | none => none
  | some charging_status =>
    match parse_battery_level (raw.getD 15 0) with
    | none => none
    | some case_level =>
      match parse_battery_level (raw.getD 13 0), parse_battery_level (raw.getD 12 0) with
      | some left, some right =>
        match maybe_flip raw left right,
              maybe_flip raw (chargingFlags charging_status).1 (chargingFlags charging_status).2.1 with
        | some chlr, some cglr =>
          some { connected := true
                 model := modelLookup (raw.getD 7 0)
                 charge_left := chlr.1
                 charge_right := chlr.2
                 charge_case := case_level
                 charging_left := cglr.1
                 charging_right := cglr.2
                 charging_case := (chargingFlags charging_status).2.2 }
        | _, _ => none
      | _, _ => none

end airstatus

namespace mainpy

/-- `parse_battery_level` of `src/main.py` (lines 82-88): like the other
variant but with the numeric sentinel `-1` for digits 11-15. -/
def parse_battery_level (raw_status : Nat) : Option Int :=
  (hexDigit? raw_status).map mainBatteryVal

/-- `is_flipped` of `src/main.py` (lines 91-92): the payload is flipped iff
bit 0x02 of the hex digit at index 10 is clear; a non-hex character raises
(`none`). -/
def is_flipped (raw : List Nat) : Option Bool :=
  (hexDigit? (raw.getD 10 0)).map (fun d => d &&& 2 == 0)

/-- `parse_airpods_data` of `src/main.py` (lines 49-79): parse batteries at
indices 13/12/15, the charging digit at 14, then conditionally swap
left/right according to `is_flipped`. -/
def parse_airpods_data (raw : List Nat) : Option StatusMain :=
  match parse_battery_level (raw.getD 13 0), parse_battery_level (raw.getD 12 0),
        parse_battery_level (raw.getD 15 0) with
  | some left_status, some right_status, some case_status =>
    match hexDigit? (raw.getD 14 0) with
    | none => none
    | some charging_status =>
      match is_flipped raw with
      | none => none
      | some flip =>
        some { connected := true
               charge_left := if flip then right_status else left_status
               charge_right := if flip then left_status else right_status
               charge_case := case_status
               charging_left := if flip then (chargingFlags charging_status).2.1
                                else (chargingFlags charging_status).1
               charging_right := if flip then (chargingFlags charging_status).1
                                 else (chargingFlags charging_status).2.1
               charging_case := (chargingFlags charging_status).2.2
               model := modelLookup (raw.getD 7 0) }
  | _, _, _ => none

end mainpy

/-- `MIN_RSSI` constant of both source files (line 10). -/
def MIN_RSSI : Int := -60

/-- `AIRPODS_MANUFACTURER` constant of both source files (line 11). -/
def AIRPODS_MANUFACTURER : Nat := 76

/-- `AIRPODS_DATA_LENGTH` constant of both source files (line 12): the
length of the hex encoding of the 27-byte blob, in characters. -/
def AIRPODS_DATA_LENGTH : Nat := 54

/-- ASCII code of the lowercase hex character of a nibble `n < 16`, as
produced by `binascii.hexlify`. -/
def hexChar (n : Nat) : Nat :=
  if n < 10 then 48 + n else 87 + n

/-- `binascii.hexlify`: each input byte becomes two lowercase ASCII hex
characters, high nibble first. -/
def hexlify (data : List Nat) : List Nat :=
  data.flatMap (fun b => [hexChar (b % 256 / 16), hexChar (b % 16)])

/-- A BLE advertisement record as both source files consume it: the
`metadata["manufacturer_data"]` dict (vendor id, blob) and the RSSI.
The dict is modelled as an association list. -/
structure AdvRecord where
  manufacturer_data : List (Nat × List Nat)
  rssi : Int
deriving DecidableEq

/-- Effect of `d.metadata["manufacturer_data"].pop(AIRPODS_MANUFACTURER, None)`
on the dict: the entry for vendor 76 (if any) is removed. -/
def popManufacturer (m : List (Nat × List Nat)) : List (Nat × List Nat) :=
  m.eraseP (fun p => p.1 == AIRPODS_MANUFACTURER)

/-- Record after `fetch_airpods_raw_data` has examined it: its
manufacturer-data dict has lost the vendor-76 entry. -/
def popRecord (d : AdvRecord) : AdvRecord :=
  { d with manufacturer_data := popManufacturer d.manufacturer_data }

/-- `fetch_airpods_raw_data` of both source files (lines 33-46), result
only: walk the scanned records in order; for each, pop the vendor-76 blob;
if the record's RSSI is at least `MIN_RSSI`, the blob is present and truthy
(non-empty), and its hex encoding has exactly `AIRPODS_DATA_LENGTH`
characters, return that hex encoding; otherwise continue; return `None`
after the last record.  (One retry attempt; the scan itself is the external
collaborator supplying the record list.) -/
def fetch_airpods_raw_data : List AdvRecord → Option (List Nat)
  | [] => none
  | d :: devices =>
    match d.manufacturer_data.lookup AIRPODS_MANUFACTURER with
    | some data =>
      if MIN_RSSI ≤ d.rssi ∧ data ≠ [] then
        if (hexlify data).length = AIRPODS_DATA_LENGTH then some (hexlify data)
        else fetch_airpods_raw_data devices
      else fetch_airpods_raw_data devices
    | none => fetch_airpods_raw_data devices

/-- `fetch_airpods_raw_data`, state-passing version: same result, and also
returns the batch as the loop leaves it — every examined record has had its
vendor-76 entry popped, records after an accepted one are untouched. -/
def fetch_airpods_raw_data_st : List AdvRecord → Option (List Nat) × List AdvRecord
  | [] => (none, [])
  | d :: devices =>
    match d.manufacturer_data.lookup AIRPODS_MANUFACTURER with
    | some data =>
      if MIN_RSSI ≤ d.rssi ∧ data ≠ [] then
        if (hexlify data).length = AIRPODS_DATA_LENGTH then
          (some (hexlify data), popRecord d :: devices)
        else
          let rest := fetch_airpods_raw_data_st devices
          (rest.1, popRecord d :: rest.2)
      else
        let rest := fetch_airpods_raw_data_st devices
        (rest.1, popRecord d :: rest.2)
    | none =>
      let rest := fetch_airpods_raw_data_st devices
      (rest.1, popRecord d :: rest.2)

/-- A record passes the filter iff it has a vendor-76 blob whose hex
encoding is exactly 54 characters and its RSSI is at least -60.  (A truthy,
i.e. non-empty, blob is implied by the length check: `hexlify [] = []`.) -/
def qualifies (d : AdvRecord) : Bool :=
  match d.manufacturer_data.lookup AIRPODS_MANUFACTURER with
  | some data => decide (MIN_RSSI ≤ d.rssi) && ((hexlify data).length == AIRPODS_DATA_LENGTH)
  | none => false

/-- Number of records `fetch_airpods_raw_data` examines (and hence pops):
everything up to and including the first qualifying record, or the whole
batch. -/
def examinedCount : List AdvRecord → Nat
  | [] => 0
  | d :: devices => if qualifies d then 1 else examinedCount devices + 1

/-- `retry_on_none` of both source files (lines 15-30), applied to a probe.
The probe is modelled as a function from the 0-based call number to that
call's result; the return value is `(result, probe calls, sleeps)`.
`retryGo probe i n` runs the remaining `n` iterations of
`for _ in range(times)` starting at call number `i`; note the Python loop
body sleeps after every `None` result, including the one of the final
iteration. -/
def retryGo (probe : Nat → Option α) : Nat → Nat → Option α × Nat × Nat
  | _, 0 => (none, 0, 0)
  | i, n + 1 =>
    match probe i with
    | some v => (some v, 1, 0)
    | none =>
      let rest := retryGo probe (i + 1) n
      (rest.1, rest.2.1 + 1, rest.2.2 + 1)

/-- `retry_on_none(times=..., sleep_ms=...)` wrapping a probe: run up to
`times` calls from call number 0. -/
def retry_on_none (times : Nat) (probe : Nat → Option α) : Option α × Nat × Nat :=
  retryGo probe 0 times

/-- What `main` writes to standard output (exactly one JSON object):
either the literal `{"connected": false}` or the JSON serialization of a
decoded status of type `σ`. -/
inductive CliOut (σ : Type) where
  | connectedFalse : CliOut σ
  | deviceStatus : σ → CliOut σ
deriving DecidableEq

namespace airstatus

/-- `main` of `src/airstatus.py` (lines 104-111), as a function of the
retried fetch result: `None` prints `{"connected": false}` and exits 1;
a payload is decoded and printed with exit code 0.  A decode `ValueError`
escapes `main` uncaught (outer `none`). -/
def main (raw_data : Option (List Nat)) : Option (CliOut StatusAS × Nat) :=
  match raw_data with
  | none => some (CliOut.connectedFalse, 1)
  | some raw =>
    match parse_airpods_data raw with
    | none => none
    | some s => some (CliOut.deviceStatus s, 0)

end airstatus

namespace mainpy

/-- `main` of `src/main.py` (lines 95-102), same shape as the other
variant. -/
def main (raw_data : Option (List Nat)) : Option (CliOut StatusMain × Nat) :=
  match raw_data with
  | none => some (CliOut.connectedFalse, 1)
  | some raw =>
    match parse_airpods_data raw with
    | none => none
    | some s => some (CliOut.deviceStatus s, 0)

end mainpy

/-- Agreement between the two variants' battery conventions: the
`Optional[int]` of `src/airstatus.py` and the `int` of `src/main.py` carry
the same reading, with `None` corresponding to the sentinel `-1`. -/
def sentinelAgrees : Option Nat → Int → Bool
  | some v, m => m == (v : Int)
  | none, m => m == -1

/-! ### Helper lemmas: decoder characterization -/

/-- Closed form of the `src/airstatus.py` status assembled from the five hex
digits of the payload (indices 14, 15, 13, 12, 10). -/
def mkStatusAS (raw : List Nat) (d14 d15 d13 d12 d10 : Nat) : StatusAS :=
  { connected := true
    model := modelLookup (raw.getD 7 0)
    charge_left := if d10 &&& 2 == 0 then batteryVal d12 else batteryVal d13
    charge_right := if d10 &&& 2 == 0 then batteryVal d13 else batteryVal d12
    charge_case := batteryVal d15
    charging_left := if d10 &&& 2 == 0 then (chargingFlags d14).2.1 else (chargingFlags d14).1
    charging_right := if d10 &&& 2 == 0 then (chargingFlags d14).1 else (chargingFlags d14).2.1
    charging_case := (chargingFlags d14).2.2 }

/-- Closed form of the `src/main.py` status assembled from the five hex
digits of the payload. -/
def mkStatusMain (raw : List Nat) (d14 d15 d13 d12 d10 : Nat) : StatusMain :=
  { connected := true
    charge_left := if d10 &&& 2 == 0 then mainBatteryVal d12 else mainBatteryVal d13
    charge_right := if d10 &&& 2 == 0 then mainBatteryVal d13 else mainBatteryVal d12
    charge_case := mainBatteryVal d15
    charging_left := if d10 &&& 2 == 0 then (chargingFlags d14).2.1 else (chargingFlags d14).1
    charging_right := if d10 &&& 2 == 0 then (chargingFlags d14).1 else (chargingFlags d14).2.1
    charging_case := (chargingFlags d14).2.2
    model := modelLookup (raw.getD 7 0) }

theorem hexDigit?_lt_16 {b d : Nat} (h : hexDigit? b = some d) : d < 16 := by
  unfold hexDigit? at h
  split_ifs at h <;> simp_all <;> omega

theorem parseAS_norm (raw : List Nat) :
    airstatus.parse_airpods_data raw =
      match hexDigit? (raw.getD 14 0), hexDigit? (raw.getD 15 0), hexDigit? (raw.getD 13 0),
            hexDigit? (raw.getD 12 0), hexDigit? (raw.getD 10 0) with
      | some d14, some d15, some d13, some d12, some d10 =>
        some (mkStatusAS raw d14 d15 d13 d12 d10)
      | _, _, _, _, _ => none := by
  unfold airstatus.parse_airpods_data airstatus.parse_battery_level airstatus.maybe_flip
  cases h14 : hexDigit? (raw.getD 14 0) <;>
  cases h15 : hexDigit? (raw.getD 15 0) <;>
  cases h13 : hexDigit? (raw.getD 13 0) <;>
  cases h12 : hexDigit? (raw.getD 12 0) <;>
  cases h10 : hexDigit? (raw.getD 10 0) <;>
    (simp [mkStatusAS, apply_ite]; try (split_ifs <;> simp))

theorem parseMain_norm (raw : List Nat) :
    mainpy.parse_airpods_data raw =
      match hexDigit? (raw.getD 14 0), hexDigit? (raw.getD 15 0), hexDigit? (raw.getD 13 0),
            hexDigit? (raw.getD 12 0), hexDigit? (raw.getD 10 0) with
      | some d14, some d15, some d13, some d12, some d10 =>
        some (mkStatusMain raw d14 d15 d13 d12 d10)
      | _, _, _, _, _ => none := by
  unfold mainpy.parse_airpods_data mainpy.parse_battery_level mainpy.is_flipped
  cases h14 : hexDigit? (raw.getD 14 0) <;>
  cases h15 : hexDigit? (raw.getD 15 0) <;>
  cases h13 : hexDigit? (raw.getD 13 0) <;>
  cases h12 : hexDigit? (raw.getD 12 0) <;>
  cases h10 : hexDigit? (raw.getD 10 0) <;>
    simp [mkStatusMain, apply_ite]

theorem parseAS_eq (raw : List Nat) (d14 d15 d13 d12 d10 : Nat)
    (h14 : hexDigit? (raw.getD 14 0) = some d14)
    (h15 : hexDigit? (raw.getD 15 0) = some d15)
    (h13 : hexDigit? (raw.getD 13 0) = some d13)
    (h12 : hexDigit? (raw.getD 12 0) = some d12)
    (h10 : hexDigit? (raw.getD 10 0) = some d10) :
    airstatus.parse_airpods_data raw = some (mkStatusAS raw d14 d15 d13 d12 d10) := by
  rw [parseAS_norm raw, h14, h15, h13, h12, h10]

theorem parseMain_eq (raw : List Nat) (d14 d15 d13 d12 d10 : Nat)
    (h14 : hexDigit? (raw.getD 14 0) = some d14)
    (h15 : hexDigit? (raw.getD 15 0) = some d15)
    (h13 : hexDigit? (raw.getD 13 0) = some d13)
    (h12 : hexDigit? (raw.getD 12 0) = some d12)
    (h10 : hexDigit? (raw.getD 10 0) = some d10) :
    mainpy.parse_airpods_data raw = some (mkStatusMain raw d14 d15 d13 d12 d10) := by
  rw [parseMain_norm raw, h14, h15, h13, h12, h10]

theorem parseAS_inv (raw : List Nat) (s : StatusAS)
    (hs : airstatus.parse_airpods_data raw = some s) :
    ∃ d14 d15 d13 d12 d10,
      hexDigit? (raw.getD 14 0) = some d14 ∧ hexDigit? (raw.getD 15 0) = some d15 ∧
      hexDigit? (raw.getD 13 0) = some d13 ∧ hexDigit? (raw.getD 12 0) = some d12 ∧
      hexDigit? (raw.getD 10 0) = some d10 ∧ s = mkStatusAS raw d14 d15 d13 d12 d10 := by
  rw [parseAS_norm raw] at hs
  cases h14 : hexDigit? (raw.getD 14 0) with
  | none => rw [h14] at hs; exact absurd hs (by simp)
  | some d14 =>
  rw [h14] at hs
  cases h15 : hexDigit? (raw.getD 15 0) with
  | none => rw [h15] at hs; exact absurd hs (by simp)
  | some d15 =>
  rw [h15] at hs
  cases h13 : hexDigit? (raw.getD 13 0) with
  | none => rw [h13] at hs; exact absurd hs (by simp)
  | some d13 =>
  rw [h13] at hs
  cases h12 : hexDigit? (raw.getD 12 0) with
  | none => rw [h12] at hs; exact absurd hs (by simp)
  | some d12 =>
  rw [h12] at hs
  cases h10 : hexDigit? (raw.getD 10 0) with
  | none => rw [h10] at hs; exact absurd hs (by simp)
  | some d10 =>
  rw [h10] at hs
  simp only [Option.some.injEq] at hs
  exact ⟨d14, d15, d13, d12, d10, rfl, rfl, rfl, rfl, rfl, hs.symm⟩

theorem parseMain_inv (raw : List Nat) (t : StatusMain)
    (ht : mainpy.parse_airpods_data raw = some t) :
    ∃ d14 d15 d13 d12 d10,
      hexDigit? (raw.getD 14 0) = some d14 ∧ hexDigit? (raw.getD 15 0) = some d15 ∧
      hexDigit? (raw.getD 13 0) = some d13 ∧ hexDigit? (raw.getD 12 0) = some d12 ∧
      hexDigit? (raw.getD 10 0) = some d10 ∧ t = mkStatusMain raw d14 d15 d13 d12 d10 := by
  rw [parseMain_norm raw] at ht
  cases h14 : hexDigit? (raw.getD 14 0) with
  | none => rw [h14] at ht; exact absurd ht (by simp)
  | some d14 =>
  rw [h14] at ht
  cases h15 : hexDigit? (raw.getD 15 0) with
  | none => rw [h15] at ht; exact absurd ht (by simp)
  | some d15 =>
  rw [h15] at ht
  cases h13 : hexDigit? (raw.getD 13 0) with
  | none => rw [h13] at ht; exact absurd ht (by simp)
  | some d13 =>
  rw [h13] at ht
  cases h12 : hexDigit? (raw.getD 12 0) with
  | none => rw [h12] at ht; exact absurd ht (by simp)
  | some d12 =>
  rw [h12] at ht
  cases h10 : hexDigit? (raw.getD 10 0) with
  | none => rw [h10] at ht; exact absurd ht (by simp)
  | some d10 =>
  rw [h10] at ht
  simp only [Option.some.injEq] at ht
  exact ⟨d14, d15, d13, d12, d10, rfl, rfl, rfl, rfl, rfl, ht.symm⟩

/-! ### Helper lemmas: hex characters, hexlify and totality of the decoder -/

theorem hexChar_hexDigit : ∀ n, n < 16 → hexDigit? (hexChar n) = some n := by decide

theorem hexlify_all_hex (data : List Nat) :
    ∀ x ∈ hexlify data, (hexDigit? x).isSome := by
  intro x hx
  simp only [hexlify, List.mem_flatMap, List.mem_cons, List.not_mem_nil, or_false] at hx
  obtain ⟨b, _, hx⟩ := hx
  rcases hx with rfl | rfl
  · rw [hexChar_hexDigit (b % 256 / 16) (by omega)]; rfl
  · rw [hexChar_hexDigit (b % 16) (by omega)]; rfl

theorem hexlify_length (data : List Nat) : (hexlify data).length = 2 * data.length := by
  induction data with
  | nil => rfl
  | cons b bs ih => simp [hexlify, List.flatMap_cons] at ih ⊢; omega

theorem getD_hex (raw : List Nat) (hhex : ∀ x ∈ raw, (hexDigit? x).isSome)
    (i : Nat) (hi : i < raw.length) : ∃ d, hexDigit? (raw.getD i 0) = some d := by
  rw [List.getD_eq_getElem raw 0 hi]
  exact Option.isSome_iff_exists.mp (hhex _ (List.getElem_mem hi))

theorem parseAS_total (raw : List Nat) (hlen : raw.length = 54)
    (hhex : ∀ x ∈ raw, (hexDigit? x).isSome) :
    ∃ d14 d15 d13 d12 d10,
      hexDigit? (raw.getD 14 0) = some d14 ∧ hexDigit? (raw.getD 15 0) = some d15 ∧
      hexDigit? (raw.getD 13 0) = some d13 ∧ hexDigit? (raw.getD 12 0) = some d12 ∧
      hexDigit? (raw.getD 10 0) = some d10 ∧
      airstatus.parse_airpods_data raw = some (mkStatusAS raw d14 d15 d13 d12 d10) ∧
      mainpy.parse_airpods_data raw = some (mkStatusMain raw d14 d15 d13 d12 d10) := by
  obtain ⟨d14, h14⟩ := getD_hex raw hhex 14 (by omega)
  obtain ⟨d15, h15⟩ := getD_hex raw hhex 15 (by omega)
  obtain ⟨d13, h13⟩ := getD_hex raw hhex 13 (by omega)
  obtain ⟨d12, h12⟩ := getD_hex raw hhex 12 (by omega)
  obtain ⟨d10, h10⟩ := getD_hex raw hhex 10 (by omega)
  exact ⟨d14, d15, d13, d12, d10, h14, h15, h13, h12, h10,
    parseAS_eq raw d14 d15 d13 d12 d10 h14 h15 h13 h12 h10,
    parseMain_eq raw d14 d15 d13 d12 d10 h14 h15 h13 h12 h10⟩

/-! ### Helper lemmas: the advertisement filter -/

theorem fetch_some_spec (recs : List AdvRecord) (raw : List Nat)
    (h : fetch_airpods_raw_data recs = some raw) :
    raw.length = 54 ∧ ∀ x ∈ raw, (hexDigit? x).isSome := by
  induction recs with
  | nil => simp [fetch_airpods_raw_data] at h
  | cons d devices ih =>
    rw [fetch_airpods_raw_data] at h
    cases hl : d.manufacturer_data.lookup AIRPODS_MANUFACTURER with
    | none => simp only [hl] at h; exact ih h
    | some data =>
      simp only [hl] at h
      split_ifs at h with hcond hlen
      · obtain rfl : hexlify data = raw := Option.some.inj h
        exact ⟨hlen, hexlify_all_hex data⟩
      · exact ih h
      · exact ih h

/-! ### Helper lemmas: the retry scheduler -/

theorem retryGo_first_some (probe : Nat → Option α) (v : α) :
    ∀ (k i n : Nat), k < n → (∀ j, j < k → probe (i + j) = none) →
      probe (i + k) = some v → retryGo probe i n = (some v, k + 1, k) := by
  intro k
  induction k with
  | zero =>
    intro i n hn hnone hv
    cases n with
    | zero => omega
    | succ m => rw [Nat.add_zero] at hv; simp [retryGo, hv]
  | succ k ih =>
    intro i n hn hnone hv
    cases n with
    | zero => omega
    | succ m =>
      have h0 : probe i = none := by
        have := hnone 0 (Nat.succ_pos k)
        rwa [Nat.add_zero] at this
      have hrest : retryGo probe (i + 1) m = (some v, k + 1, k) := by
        refine ih (i + 1) m (by omega) (fun j hj => ?_) ?_
        · have := hnone (j + 1) (by omega)
          rwa [show i + (j + 1) = i + 1 + j by omega] at this
        · rwa [show i + (k + 1) = i + 1 + k by omega] at hv
      simp [retryGo, h0, hrest]

theorem retryGo_all_none (probe : Nat → Option α) (h : ∀ i, probe i = none) :
    ∀ n i, retryGo probe i n = (none, n, n) := by
  intro n
  induction n with
  | zero => intro i; rfl
  | succ m ih => intro i; simp [retryGo, h i, ih (i + 1)]

/-! ### Concrete payloads and statuses used as witnesses -/

/-- All-zeros payload: 54 ASCII `0` characters. -/
def zeroPayload : List Nat := List.replicate 54 48

/-- Status decoded from `zeroPayload` (and from `zeroPayload` with the flip
nibble forced to `2`): every digit 0, all batteries 0%, nothing charging,
unknown model. -/
def zeroStatusAS : StatusAS :=
  { connected := true, model := "Unknown", charge_left := some 0, charge_right := some 0,
    charge_case := some 0, charging_left := false, charging_right := false,
    charging_case := false }

/-- Payload of the end-to-end scenario: model nibble `e` (index 7), flip
nibble `2` (not flipped, index 10), right battery 6 (index 12), left
battery 5 (index 13), charging nibble 5 (index 14), case battery 7
(index 15), `0` everywhere else. -/
def demoRaw : List Nat :=
  (((((((List.replicate 54 48).set 7 101).set 10 50).set 12 54).set 13 53).set 14 53).set 15 55)

/-- Status decoded from `demoRaw`. -/
def demoStatusAS : StatusAS :=
  { connected := true, model := "Airpods Pro", charge_left := some 50, charge_right := some 60,
    charge_case := some 70, charging_left := true, charging_right := false,
    charging_case := true }

/-- Status of the `src/main.py` variant decoded from `demoRaw`. -/
def demoStatusMain : StatusMain :=
  { connected := true, charge_left := 50, charge_right := 60, charge_case := 70,
    charging_left := true, charging_right := false, charging_case := true,
    model := "Airpods Pro" }

/-- One-record batch whose record qualifies: vendor 76, 27-byte blob,
RSSI -50. -/
def demoBatch : List AdvRecord :=
  [{ manufacturer_data := [(76, List.replicate 27 0)], rssi := -50 }]

/-! ### Claim theorems -/

/-- C1: for every 54-hex-character payload (the hex encoding of the 27-byte
blob), the battery level decoded from the byte at index 12 (right-raw),
13 (left-raw) or 15 (case), whose ASCII character reads as the hex digit
`d` (necessarily `d < 16`), is `d * 10` percent when `d ≤ 10` and the
unknown/absent sentinel when `11 ≤ d ≤ 15` (`None` in `src/airstatus.py`,
`-1` in `src/main.py`). -/
theorem C1_battery_level_mapping (raw : List Nat) (h54 : raw.length = 54)
    (i d : Nat) (hi : i = 12 ∨ i = 13 ∨ i = 15)
    (hd : hexDigit? (raw.getD i 0) = some d) :
    d < 16 ∧
    airstatus.parse_battery_level (raw.getD i 0) =
      some (if d ≤ 10 then some (d * 10) else none) ∧
    mainpy.parse_battery_level (raw.getD i 0) =
      some (if d ≤ 10 then (d * 10 : Int) else -1) := by
  refine ⟨hexDigit?_lt_16 hd, ?_, ?_⟩
  · simp only [airstatus.parse_battery_level, hd, Option.map_some', batteryVal]
  · simp only [mainpy.parse_battery_level, hd, Option.map_some', mainBatteryVal]

/-- Witness for C1: the all-zeros payload at index 12 decodes digit 0 to a
0% battery reading in both variants. -/
theorem C1_battery_level_mapping_witness :
    hexDigit? (zeroPayload.getD 12 0) = some 0 ∧
    airstatus.parse_battery_level (zeroPayload.getD 12 0) = some (some 0) ∧
    mainpy.parse_battery_level (zeroPayload.getD 12 0) = some 0 := by
  have h := C1_battery_level_mapping zeroPayload (by decide) 12 0 (Or.inl rfl) (by decide)
  exact ⟨by decide, by simpa using h.2.1, by simpa using h.2.2⟩

/-- C3 (amended): for every positive `times` and probe, if the probe is
absent on the first `k` calls (`k < times`) and present on call `k + 1`,
`retry_on_none` returns that value after exactly `k + 1` calls and `k`
sleeps; if the probe is absent on every call, it returns absent after
exactly `times` calls and `times` sleeps — the loop body sleeps after
every absent attempt, including the final one. -/
theorem C3_retry_counts :
    (∀ (α : Type) (times k : Nat) (probe : Nat → Option α) (v : α),
       k < times → (∀ i, i < k → probe i = none) → probe k = some v →
       retry_on_none times probe = (some v, k + 1, k)) ∧
    (∀ (α : Type) (times : Nat) (probe : Nat → Option α),
       (∀ i, probe i = none) →
       retry_on_none times probe = (none, times, times)) := by
  constructor
  · intro α times k probe v hk hnone hv
    exact retryGo_first_some probe v k 0 times hk
      (fun j hj => by simpa using hnone j hj) (by simpa using hv)
  · intro α times probe h
    exact retryGo_all_none probe h times 0

/-- Counterexample for C3 as stated: with `times = 2` and an always-absent
probe the code sleeps twice, not `times - 1 = 1` times, because
`time.sleep` also runs after the final failed attempt. -/
theorem C3_retry_counts_counterexample :
    retry_on_none 2 (fun _ => (none : Option Nat)) = (none, 2, 2) ∧
    retry_on_none 2 (fun _ => (none : Option Nat)) ≠ (none, 2, 1) :=
  ⟨rfl, by decide⟩

/-- Witness for C3: a probe present first on call 2 stops after 3 calls and
2 sleeps; an always-absent probe with `times = 3` gives 3 calls and 3
sleeps. -/
theorem C3_retry_counts_witness :
    retry_on_none 3 (fun i => if i = 2 then some 7 else (none : Option Nat)) = (some 7, 3, 2) ∧
    retry_on_none 3 (fun _ => (none : Option Nat)) = (none, 3, 3) := by
  constructor
  · exact C3_retry_counts.1 Nat 3 2 _ 7 (by decide)
      (fun i hi => by interval_cases i <;> rfl) rfl
  · exact C3_retry_counts.2 Nat 3 _ (fun i => rfl)

/-- C4: the decoded model of both variants is `modelLookup` of the byte at
payload index 7, and the table maps the lowercase characters `2`, `f`,
`e`, `a` to the four model names while every other byte — uppercase hex
digits included — maps to "Unknown". -/
theorem C4_model_lookup (raw : List Nat) (h54 : raw.length = 54)
    (s : StatusAS) (t : StatusMain)
    (hs : airstatus.parse_airpods_data raw = some s)
    (ht : mainpy.parse_airpods_data raw = some t) :
    s.model = modelLookup (raw.getD 7 0) ∧ t.model = modelLookup (raw.getD 7 0) ∧
    modelLookup 50 = "Airpods 1" ∧ modelLookup 102 = "Airpods 2" ∧
    modelLookup 101 = "Airpods Pro" ∧ modelLookup 97 = "Airpods Max" ∧
    ∀ b, b ≠ 50 → b ≠ 102 → b ≠ 101 → b ≠ 97 → modelLookup b = "Unknown" := by
  obtain ⟨d14, d15, d13, d12, d10, -, -, -, -, -, rfl⟩ := parseAS_inv raw s hs
  obtain ⟨e14, e15, e13, e12, e10, -, -, -, -, -, rfl⟩ := parseMain_inv raw t ht
  refine ⟨rfl, rfl, rfl, rfl, rfl, rfl, ?_⟩
  intro b h1 h2 h3 h4
  simp [modelLookup, h1, h2, h3, h4]

/-- Witness for C4 at `demoRaw` (model character `e` at index 7). -/
theorem C4_model_lookup_witness :
    demoStatusAS.model = modelLookup (demoRaw.getD 7 0) ∧
    demoStatusMain.model = modelLookup (demoRaw.getD 7 0) := by
  have h := C4_model_lookup demoRaw (by decide) demoStatusAS demoStatusMain rfl rfl
  exact ⟨h.1, h.2.1⟩

/-- C8: a 54-character payload with a non-hex character at any of the
semantic indices 10, 12, 13, 14, 15 makes both decoders raise (modelled by
`none`), and `main` propagates the raise instead of printing any status
object — in particular it does not report `connected: false`. -/
theorem C8_malformed_payload (raw : List Nat) (h54 : raw.length = 54)
    (i : Nat) (hi : i = 10 ∨ i = 12 ∨ i = 13 ∨ i = 14 ∨ i = 15)
    (hbad : hexDigit? (raw.getD i 0) = none) :
    airstatus.parse_airpods_data raw = none ∧ mainpy.parse_airpods_data raw = none ∧
    airstatus.main (some raw) = none ∧ mainpy.main (some raw) = none := by
  have hAS : airstatus.parse_airpods_data raw = none := by
    cases hp : airstatus.parse_airpods_data raw with
    | none => rfl
    | some s =>
      obtain ⟨d14, d15, d13, d12, d10, h14, h15, h13, h12, h10, -⟩ := parseAS_inv raw s hp
      rcases hi with rfl | rfl | rfl | rfl | rfl <;> simp_all
  have hM : mainpy.parse_airpods_data raw = none := by
    cases hp : mainpy.parse_airpods_data raw with
    | none => rfl
    | some t =>
      obtain ⟨d14, d15, d13, d12, d10, h14, h15, h13, h12, h10, -⟩ := parseMain_inv raw t hp
      rcases hi with rfl | rfl | rfl | rfl | rfl <;> simp_all
  exact ⟨hAS, hM, by simp [airstatus.main, hAS], by simp [mainpy.main, hM]⟩

/-- Witness for C8: the all-zeros payload with `z` (122) at index 12 makes
both decoders and both `main`s fail. -/
theorem C8_malformed_payload_witness :
    airstatus.parse_airpods_data (zeroPayload.set 12 122) = none ∧
    mainpy.parse_airpods_data (zeroPayload.set 12 122) = none ∧
    airstatus.main (some (zeroPayload.set 12 122)) = none ∧
    mainpy.main (some (zeroPayload.set 12 122)) = none :=
  C8_malformed_payload (zeroPayload.set 12 122) (by decide) 12
    (Or.inr (Or.inl rfl)) (by decide)

theorem sentinel_battery (d : Nat) :
    sentinelAgrees (batteryVal d) (mainBatteryVal d) = true := by
  by_cases h : d ≤ 10
  · simp only [batteryVal, mainBatteryVal, if_pos h, sentinelAgrees, beq_iff_eq]
    push_cast
    ring
  · simp [batteryVal, mainBatteryVal, if_neg h, sentinelAgrees]

/-- C2: for two 54-character payloads identical except at index 10, one
with flip bit 0x02 set (not flipped) and one with it clear (flipped), the
decoders swap the final left/right battery values and charging flags and
leave the case battery and case charging flag unchanged; `is_flipped`
returns false for the set bit and true for the clear bit. -/
theorem C2_flip_swaps (raw1 raw2 : List Nat)
    (h1 : raw1.length = 54) (h2 : raw2.length = 54)
    (heq : ∀ i, i < 54 → i ≠ 10 → raw1.getD i 0 = raw2.getD i 0)
    (d1 d2 : Nat)
    (hd1 : hexDigit? (raw1.getD 10 0) = some d1)
    (hd2 : hexDigit? (raw2.getD 10 0) = some d2)
    (hset : d1 &&& 2 ≠ 0) (hclear : d2 &&& 2 = 0)
    (s1 : StatusAS) (hs1 : airstatus.parse_airpods_data raw1 = some s1) :
    mainpy.is_flipped raw1 = some false ∧ mainpy.is_flipped raw2 = some true ∧
    ∃ s2, airstatus.parse_airpods_data raw2 = some s2 ∧
      s2.charge_left = s1.charge_right ∧ s2.charge_right = s1.charge_left ∧
      s2.charging_left = s1.charging_right ∧ s2.charging_right = s1.charging_left ∧
      s2.charge_case = s1.charge_case ∧ s2.charging_case = s1.charging_case ∧
      ∃ t1 t2, mainpy.parse_airpods_data raw1 = some t1 ∧
        mainpy.parse_airpods_data raw2 = some t2 ∧
        t2.charge_left = t1.charge_right ∧ t2.charge_right = t1.charge_left ∧
        t2.charging_left = t1.charging_right ∧ t2.charging_right = t1.charging_left ∧
        t2.charge_case = t1.charge_case ∧ t2.charging_case = t1.charging_case := by
  obtain ⟨d14, d15, d13, d12, d10, h14, h15, h13, h12, h10, rfl⟩ := parseAS_inv raw1 s1 hs1
  obtain rfl : d10 = d1 := by rw [h10] at hd1; exact Option.some.inj hd1
  have e14 : hexDigit? (raw2.getD 14 0) = some d14 := by
    rw [← heq 14 (by omega) (by omega)]; exact h14
  have e15 : hexDigit? (raw2.getD 15 0) = some d15 := by
    rw [← heq 15 (by omega) (by omega)]; exact h15
  have e13 : hexDigit? (raw2.getD 13 0) = some d13 := by
    rw [← heq 13 (by omega) (by omega)]; exact h13
  have e12 : hexDigit? (raw2.getD 12 0) = some d12 := by
    rw [← heq 12 (by omega) (by omega)]; exact h12
  have hflip1 : (d10 &&& 2 == 0) = false := by simpa using hset
  have hflip2 : (d2 &&& 2 == 0) = true := by simpa using hclear
  have hisf1 : mainpy.is_flipped raw1 = some false := by
    unfold mainpy.is_flipped
    rw [h10]
    simp only [Option.map_some']
    rw [hflip1]
  have hisf2 : mainpy.is_flipped raw2 = some true := by
    unfold mainpy.is_flipped
    rw [hd2]
    simp only [Option.map_some']
    rw [hflip2]
  refine ⟨hisf1, hisf2,
    mkStatusAS raw2 d14 d15 d13 d12 d2, parseAS_eq raw2 d14 d15 d13 d12 d2 e14 e15 e13 e12 hd2,
    by simp [mkStatusAS, hflip1, hflip2], by simp [mkStatusAS, hflip1, hflip2],
    by simp [mkStatusAS, hflip1, hflip2], by simp [mkStatusAS, hflip1, hflip2],
    rfl, rfl,
    mkStatusMain raw1 d14 d15 d13 d12 d10, mkStatusMain raw2 d14 d15 d13 d12 d2,
    parseMain_eq raw1 d14 d15 d13 d12 d10 h14 h15 h13 h12 h10,
    parseMain_eq raw2 d14 d15 d13 d12 d2 e14 e15 e13 e12 hd2,
    by simp [mkStatusMain, hflip1, hflip2], by simp [mkStatusMain, hflip1, hflip2],
    by simp [mkStatusMain, hflip1, hflip2], by simp [mkStatusMain, hflip1, hflip2],
    rfl, rfl⟩

/-- Witness for C2: all-zeros payload with flip nibble `2` (not flipped)
against the plain all-zeros payload (flip digit 0, flipped). -/
theorem C2_flip_swaps_witness :
    mainpy.is_flipped (zeroPayload.set 10 50) = some false ∧
    mainpy.is_flipped zeroPayload = some true ∧
    ∃ s2, airstatus.parse_airpods_data zeroPayload = some s2 ∧
      s2.charge_left = zeroStatusAS.charge_right ∧ s2.charge_right = zeroStatusAS.charge_left ∧
      s2.charging_left = zeroStatusAS.charging_right ∧
      s2.charging_right = zeroStatusAS.charging_left ∧
      s2.charge_case = zeroStatusAS.charge_case ∧
      s2.charging_case = zeroStatusAS.charging_case ∧
      ∃ t1 t2, mainpy.parse_airpods_data (zeroPayload.set 10 50) = some t1 ∧
        mainpy.parse_airpods_data zeroPayload = some t2 ∧
        t2.charge_left = t1.charge_right ∧ t2.charge_right = t1.charge_left ∧
        t2.charging_left = t1.charging_right ∧ t2.charging_right = t1.charging_left ∧
        t2.charge_case = t1.charge_case ∧ t2.charging_case = t1.charging_case :=
  C2_flip_swaps (zeroPayload.set 10 50) zeroPayload (by decide) (by decide)
    (by decide) 2 0 (by decide) (by decide) (by decide) (by decide) zeroStatusAS rfl

/-- C5: the charging nibble at payload index 14 is read as a 4-bit field
whose bits 0, 1, 2 are the raw left, right and case charging flags
independently (bit 3 has no effect), and the decoded status carries the
case flag unswapped while left/right go through the flip. -/
theorem C5_charging_flags (raw : List Nat) (h54 : raw.length = 54) (n : Nat)
    (hn : hexDigit? (raw.getD 14 0) = some n) :
    (∀ m, m < 16 →
       chargingFlags m = (m.testBit 0, m.testBit 1, m.testBit 2) ∧
       chargingFlags m = chargingFlags (m % 8)) ∧
    (∀ s : StatusAS, airstatus.parse_airpods_data raw = some s →
       s.charging_case = (chargingFlags n).2.2 ∧
       ∃ flip, mainpy.is_flipped raw = some flip ∧
         s.charging_left = (if flip then (chargingFlags n).2.1 else (chargingFlags n).1) ∧
         s.charging_right = (if flip then (chargingFlags n).1 else (chargingFlags n).2.1)) := by
  constructor
  · decide
  · intro s hs
    obtain ⟨d14, d15, d13, d12, d10, h14, h15, h13, h12, h10, rfl⟩ := parseAS_inv raw s hs
    obtain rfl : d14 = n := by rw [h14] at hn; exact Option.some.inj hn
    refine ⟨rfl, (d10 &&& 2 == 0), ?_, rfl, rfl⟩
    unfold mainpy.is_flipped
    rw [h10]
    rfl

/-- Witness for C5 at `demoRaw` (charging nibble 5: left and case charging,
right not, not flipped). -/
theorem C5_charging_flags_witness :
    demoStatusAS.charging_case = (chargingFlags 5).2.2 ∧
    ∃ flip, mainpy.is_flipped demoRaw = some flip ∧
      demoStatusAS.charging_left = (if flip then (chargingFlags 5).2.1 else (chargingFlags 5).1) ∧
      demoStatusAS.charging_right = (if flip then (chargingFlags 5).1 else (chargingFlags 5).2.1) :=
  (C5_charging_flags demoRaw (by decide) 5 (by decide)).2 demoStatusAS rfl

/-- C9: on every 54-character payload of hex-digit characters, the two
variants' decoders agree on the connected flag (true), the model string and
all three charging booleans, and their battery fields carry the same
reading up to the sentinel convention (`None` versus `-1`). -/
theorem C9_variants_agree (raw : List Nat) (h54 : raw.length = 54)
    (hhex : ∀ x ∈ raw, (hexDigit? x).isSome) :
    ∃ s t, airstatus.parse_airpods_data raw = some s ∧
      mainpy.parse_airpods_data raw = some t ∧
      s.connected = true ∧ t.connected = true ∧ s.model = t.model ∧
      s.charging_left = t.charging_left ∧ s.charging_right = t.charging_right ∧
      s.charging_case = t.charging_case ∧
      sentinelAgrees s.charge_left t.charge_left = true ∧
      sentinelAgrees s.charge_right t.charge_right = true ∧
      sentinelAgrees s.charge_case t.charge_case = true := by
  obtain ⟨d14, d15, d13, d12, d10, h14, h15, h13, h12, h10, hAS, hM⟩ :=
    parseAS_total raw h54 hhex
  refine ⟨_, _, hAS, hM, rfl, rfl, rfl, rfl, rfl, rfl, ?_, ?_, sentinel_battery d15⟩
  · by_cases hf : (d10 &&& 2 == 0) = true <;>
      simp [mkStatusAS, mkStatusMain, hf, sentinel_battery]
  · by_cases hf : (d10 &&& 2 == 0) = true <;>
      simp [mkStatusAS, mkStatusMain, hf, sentinel_battery]

/-- C6: the advertisement filter returns the hex-encoded blob of the first
record, in scan order, that has a vendor-76 blob, RSSI at least -60 and a
54-character hex encoding, and returns absent — also on the empty batch —
when no record passes all three checks. -/
theorem C6_filter_first_match (recs : List AdvRecord) :
    fetch_airpods_raw_data recs =
      (recs.find? qualifies).bind
        (fun d => (d.manufacturer_data.lookup AIRPODS_MANUFACTURER).map hexlify) := by
  induction recs with
  | nil => rfl
  | cons d devices ih =>
    rw [fetch_airpods_raw_data]
    cases hl : d.manufacturer_data.lookup AIRPODS_MANUFACTURER with
    | none =>
      have hq : qualifies d = false := by simp [qualifies, hl]
      simp [List.find?_cons, hq, ih]
    | some data =>
      by_cases hr : MIN_RSSI ≤ d.rssi
      · by_cases hlen : (hexlify data).length = AIRPODS_DATA_LENGTH
        · have hq : qualifies d = true := by simp [qualifies, hl, hr, hlen]
          have hne : data ≠ [] := by
            intro hemp
            rw [hemp] at hlen
            simp [hexlify, AIRPODS_DATA_LENGTH] at hlen
          simp [hr, hne, hlen, List.find?_cons, hq, hl]
        · have hq : qualifies d = false := by simp [qualifies, hl, hlen]
          by_cases hne : data = []
          · simp [hne, List.find?_cons, hq, ih]
          · simp [hr, hne, hlen, List.find?_cons, hq, ih]
      · have hq : qualifies d = false := by simp [qualifies, hl, hr]
        simp [hr, List.find?_cons, hq, ih]

/-- C10: the filter pops the vendor-76 entry of every record it examines —
each record up to and including the first qualifying one, also those it
rejects on RSSI or length grounds — and leaves later records untouched; in
particular a batch whose only record is rejected on RSSI comes back
changed. -/
theorem C10_filter_mutates :
    (∀ recs : List AdvRecord,
       (fetch_airpods_raw_data_st recs).1 = fetch_airpods_raw_data recs ∧
       (fetch_airpods_raw_data_st recs).2 =
         (recs.take (examinedCount recs)).map popRecord ++
           recs.drop (examinedCount recs)) ∧
    (fetch_airpods_raw_data_st
        [{ manufacturer_data := [(76, [1])], rssi := -100 }]).2 ≠
      [{ manufacturer_data := [(76, [1])], rssi := -100 }] := by
  constructor
  · intro recs
    induction recs with
    | nil => exact ⟨rfl, rfl⟩
    | cons d devices ih =>
      rw [fetch_airpods_raw_data_st, fetch_airpods_raw_data, examinedCount]
      cases hl : d.manufacturer_data.lookup AIRPODS_MANUFACTURER with
      | none =>
        have hq : qualifies d = false := by simp [qualifies, hl]
        simp [hq, ih.1, ih.2]
      | some data =>
        by_cases hr : MIN_RSSI ≤ d.rssi
        · by_cases hlen : (hexlify data).length = AIRPODS_DATA_LENGTH
          · have hq : qualifies d = true := by simp [qualifies, hl, hr, hlen]
            have hne : data ≠ [] := by
              intro hemp
              rw [hemp] at hlen
              simp [hexlify, AIRPODS_DATA_LENGTH] at hlen
            simp [hr, hne, hlen, hq]
          · have hq : qualifies d = false := by simp [qualifies, hl, hlen]
            by_cases hne : data = []
            · simp [hne, hq, ih.1, ih.2]
            · simp [hr, hne, hlen, hq, ih.1, ih.2]
        · have hq : qualifies d = false := by simp [qualifies, hl, hr]
          simp [hr, hq, ih.1, ih.2]
  · decide

/-- C7: with no payload the program prints the connected-false object and
exits 1; with any payload the filter can actually deliver, both variants
decode it, print the status — whose connected flag is true — and exit 0. -/
theorem C7_cli_output :
    airstatus.main none = some (CliOut.connectedFalse, 1) ∧
    mainpy.main none = some (CliOut.connectedFalse, 1) ∧
    ∀ (recs : List AdvRecord) (raw : List Nat),
      fetch_airpods_raw_data recs = some raw →
      (∃ s, airstatus.main (some raw) = some (CliOut.deviceStatus s, 0) ∧
         s.connected = true) ∧
      (∃ t, mainpy.main (some raw) = some (CliOut.deviceStatus t, 0) ∧
         t.connected = true) := by
  refine ⟨rfl, rfl, ?_⟩
  intro recs raw hf
  obtain ⟨h54, hhex⟩ := fetch_some_spec recs raw hf
  obtain ⟨d14, d15, d13, d12, d10, -, -, -, -, -, hAS, hM⟩ := parseAS_total raw h54 hhex
  refine ⟨⟨mkStatusAS raw d14 d15 d13 d12 d10, ?_, rfl⟩,
          ⟨mkStatusMain raw d14 d15 d13 d12 d10, ?_, rfl⟩⟩
  · simp only [airstatus.main, hAS]
  · simp only [mainpy.main, hM]

/-- Witness for C7: the one-record demo batch yields the hexlified
27-zero-byte blob, which both programs decode and print with exit code 0. -/
theorem C7_cli_output_witness :
    (∃ s, airstatus.main (some (hexlify (List.replicate 27 0))) =
       some (CliOut.deviceStatus s, 0) ∧ s.connected = true) ∧
    (∃ t, mainpy.main (some (hexlify (List.replicate 27 0))) =
       some (CliOut.deviceStatus t, 0) ∧ t.connected = true) :=
  C7_cli_output.2.2 demoBatch (hexlify (List.replicate 27 0)) rfl

/-- Witness for C9 at the all-zeros payload. -/
theorem C9_variants_agree_witness :
    ∃ s t, airstatus.parse_airpods_data zeroPayload = some s ∧
      mainpy.parse_airpods_data zeroPayload = some t ∧
      s.connected = true ∧ t.connected = true ∧ s.model = t.model ∧
      s.charging_left = t.charging_left ∧ s.charging_right = t.charging_right ∧
      s.charging_case = t.charging_case ∧
      sentinelAgrees s.charge_left t.charge_left = true ∧
      sentinelAgrees s.charge_right t.charge_right = true ∧
      sentinelAgrees s.charge_case t.charge_case = true :=
  C9_variants_agree zeroPayload (by decide) (by decide)

